import Mathlib

/-!
Shallow embedding of the tauri-plugin-spotlight core (configuration merge,
panel registry, shortcut wiring) and proofs about its behaviour.

Translation conventions:
* `src/config.rs` is embedded directly: Rust `Option<T>` becomes `Option`,
  `Vec<T>` becomes `List`, `String` stays `String`.
* The `HashMap<String, Option<String>>` named `dict` in `PluginConfig::merge`
  is only ever queried through `contains_key`, so it is embedded as the list
  of labels of the initially chosen window list; `dict` is populated once,
  before the push loop, and never updated inside it, so membership in that
  fixed label list is exactly `contains_key` at every iteration.
* `src/spotlight_macos/spotlight.rs` is embedded as explicit state passing
  over `SpotState`; native side effects (panel creation, native show/hide
  calls, global-shortcut registrations) are recorded in the state so that
  theorems can talk about them. Lock poisoning and backend failures are
  modelled by explicit flags in the state.
-/

/-- Embeds `WindowConfig` from `src/config.rs`. -/
structure WindowConfig where
  label : String
  shortcut : Option String
  macos_window_level : Option Int
  auto_hide : Option Bool
deriving DecidableEq, Repr

/-- Embeds `PluginConfig` from `src/config.rs`. -/
structure PluginConfig where
  windows : Option (List WindowConfig)
  global_close_shortcut : Option String
deriving DecidableEq, Repr

/-- `PluginConfig::default()`: both fields `None`. -/
def PluginConfig.empty : PluginConfig :=
  { windows := none, global_close_shortcut := none }

/-- The window list chosen by the first two `if let` branches of
`PluginConfig::merge`: `a.windows` if present, else `b.windows`, else `[]`. -/
def mergeChosen (a b : PluginConfig) : List WindowConfig :=
  match a.windows with
  | some w => w
  | none =>
    match b.windows with
    | some w => w
    | none => []

/-- The key set of the `dict` HashMap in `PluginConfig::merge`: the labels of
the chosen list. The Rust code stores `label -> shortcut` but only calls
`contains_key`, so only the key set matters. -/
def mergeDict (a b : PluginConfig) : List String :=
  (mergeChosen a b).map (fun w => w.label)

/-- The entries pushed by the second loop of `PluginConfig::merge`: every
entry of `b.windows` whose label is not a key of `dict`. `dict` is not
updated inside the loop, so the loop is a filter against the fixed key set. -/
def mergeAppended (a b : PluginConfig) : List WindowConfig :=
  match b.windows with
  | some w => w.filter (fun c => ! (mergeDict a b).contains c.label)
  | none => []

/-- Embeds `PluginConfig::merge` from `src/config.rs`, including the final
normalisation `if windows.len() == 0 { None } else { Some(windows) }` and
`a.global_close_shortcut.clone().or(b.global_close_shortcut.clone())`. -/
def PluginConfig.merge (a b : PluginConfig) : PluginConfig :=
  let windows := mergeChosen a b ++ mergeAppended a b
  { windows := if windows.length = 0 then none else some windows
  , global_close_shortcut := a.global_close_shortcut.or b.global_close_shortcut }

/-- Spec-side description of the merged window list, written from the words of
§4.1 of the spec, for comparison with the implementation: take `a.windows` if
present, else `b.windows`; append every entry of `b.windows` whose label is
not already present in the chosen list (in order); normalise an empty result
to absent. -/
def specMergeWindows (a b : PluginConfig) : Option (List WindowConfig) :=
  let base :=
    match a.windows with
    | some w => w
    | none => (b.windows).getD []
  let appended :=
    ((b.windows).getD []).filter
      (fun c => ! (base.map (fun w => w.label)).contains c.label)
  let l := base ++ appended
  if l.isEmpty then none else some l

/-- Spec-side description of the merged close shortcut, written from the words
of §4.1: `a.global_close_shortcut` if present, otherwise `b`'s. -/
def specMergeClose (a b : PluginConfig) : Option String :=
  match a.global_close_shortcut with
  | some s => some s
  | none => b.global_close_shortcut

/-- Embeds the `Error` enum used by `src/spotlight_macos/spotlight.rs`.
Modelled from the spec: `src/error.rs` is not among the provided sources, so
the variants follow their uses in `spotlight.rs` (`Error::RwLock`,
`Error::Mutex`, `Error::Other`, `Error::FailedToGetNSWindow`, and the
`From<tauri::Error>` conversion used by `.map_err(tauri::Error::Runtime)?`)
and the error kinds in §7 of the spec. -/
inductive Error where
  | RwLock (msg : String)
  | Mutex (msg : String)
  | Other (msg : String)
  | FailedToGetNSWindow
  | TauriRuntime
deriving DecidableEq, Repr

/-- A native UI call performed on a panel handle, recorded for reasoning.
Panel handles are identified by the `Nat` id assigned at creation. -/
inductive NativeCall where
  | panelShow (pid : Nat)
  | panelOrderOut (pid : Nat)
deriving DecidableEq, Repr

/-- The state threaded through the embedded `SpotlightManager` operations:
the manager's own fields (`config`, the `panels` map, embedded as an
association list from label to panel id), the native side of the world
(per-panel visibility, a log of native show/hide calls, the id counter for
created panels), the global-shortcut backend (list of registered shortcut
strings, in registration order, so that registrations can be counted), and
explicit fault flags: `rwPoisoned` for the registry `RwLock`,
`poisonedPanels` for the per-entry `Mutex`es, and `failingRegisters` /
`failingQueries` for shortcut strings on which the backend's `register` /
`is_registered` calls fail. -/
structure SpotState where
  config : PluginConfig
  panels : List (String × Nat)
  panelVisible : List (Nat × Bool)
  nextPanelId : Nat
  nativeCalls : List NativeCall
  shortcuts : List String
  rwPoisoned : Bool
  poisonedPanels : List String
  failingRegisters : List String
  failingQueries : List String
deriving DecidableEq, Repr

/-- Embeds `SpotlightManager::get_window_config`: linear scan of
`config.windows` returning the first entry whose label equals the window's
label. -/
def getWindowConfig (config : PluginConfig) (label : String) : Option WindowConfig :=
  match config.windows with
  | some ws => ws.find? (fun w => w.label == label)
  | none => none

/-- Effect of `create_spotlight_panel` on the state. Modelled from the spec:
`src/spotlight_macos/panel.rs` is not among the provided sources; per §4.3
it wraps the existing window as a panel-capable resource without creating a
second native window. Here it allocates a fresh panel handle id (initially
not visible); it is infallible, matching its `-> ShareId<RawNSPanel>`
signature at the call site in `init_spotlight_window`. -/
def createPanelState (st : SpotState) : SpotState :=
  { st with nextPanelId := st.nextPanelId + 1
          , panelVisible := st.panelVisible ++ [(st.nextPanelId, false)] }

/-- The global-shortcut backend's `is_registered` query. Modelled from the
spec (§6): the backend is the host framework's capability
`is_registered(shortcut_string) -> bool`, fallible; failure is injected via
`failingQueries`. -/
def backendIsRegistered (st : SpotState) (s : String) : Option Bool :=
  if st.failingQueries.contains s then none else some (st.shortcuts.contains s)

/-- The global-shortcut backend's `register` operation. Modelled from the
spec (§6): `register(shortcut_string, callback) -> Result<(), AlreadyRegistered | Other>`,
so it fails when the string is already registered, or when failure is
injected via `failingRegisters`; on success the string is appended to the
registration list. -/
def backendRegister (st : SpotState) (s : String) : Option SpotState :=
  if st.failingRegisters.contains s || st.shortcuts.contains s then none
  else some { st with shortcuts := st.shortcuts ++ [s] }

/-- Embeds `register_shortcut_for_window`: no-op success when the window
config has no shortcut; otherwise register it, mapping backend failure to
`Error::Other("failed to register shortcut")`. -/
def registerShortcutForWindow (st : SpotState) (wc : WindowConfig) : Except Error SpotState :=
  match wc.shortcut with
  | none => .ok st
  | some s =>
    match backendRegister st s with
    | none => .error (.Other "failed to register shortcut")
    | some st1 => .ok st1

/-- Embeds `register_close_shortcut`: no-op success when the manager config
has no `global_close_shortcut`; otherwise query `is_registered` — query
failure is `Error::Other("failed to register shortcut")`; if already
registered, skip silently; otherwise register, mapping backend failure
through `tauri::Error::Runtime` into the plugin error type. -/
def registerCloseShortcut (st : SpotState) : Except Error SpotState :=
  match st.config.global_close_shortcut with
  | none => .ok st
  | some cs =>
    match backendIsRegistered st cs with
    | none => .error (.Other "failed to register shortcut")
    | some registered =>
      if registered then .ok st
      else
        match backendRegister st cs with
        | none => .error .TauriRuntime
        | some st1 => .ok st1

/-- Embeds `SpotlightManager::init_spotlight_window`. Returns the `Result`
together with the post-state (state changes persist across an `Err` return,
as they do through `&self` in Rust): no-op success when no config matches;
then the write lock (poisoning yields `Error::RwLock`); when no entry
exists yet, create the panel, register the per-window shortcut, register
the close shortcut — each `?` aborts, keeping earlier effects — and only
then insert `(label, panel)` into the map. -/
def init_spotlight_window (st : SpotState) (label : String) : Except Error Unit × SpotState :=
  match getWindowConfig st.config label with
  | none => (.ok (), st)
  | some wc =>
    if st.rwPoisoned then (.error (.RwLock "failed to write registered panels"), st)
    else if (st.panels.lookup label).isSome then (.ok (), st)
    else
      let pid := st.nextPanelId
      let st1 := createPanelState st
      match registerShortcutForWindow st1 wc with
      | .error e => (.error e, st1)
      | .ok st2 =>
        match registerCloseShortcut st2 with
        | .error e => (.error e, st2)
        | .ok st3 => (.ok (), { st3 with panels := st3.panels ++ [(label, pid)] })

/-- Embeds `SpotlightManager::get_panel`: read lock (poisoning yields
`Error::RwLock`), lookup (`Error::Other("panel not found")` when absent),
per-entry mutex (poisoning yields `Error::Mutex`), then a clone of the
handle (its id here). -/
def get_panel (st : SpotState) (label : String) : Except Error Nat :=
  if st.rwPoisoned then .error (.RwLock "failed to read registered panels")
  else
    match st.panels.lookup label with
    | some pid =>
      if st.poisonedPanels.contains label then .error (.Mutex "failed to lock panel")
      else .ok pid
    | none => .error (.Other "panel not found")

/-- Native visibility of panel `pid`, as queried by `is_visible`. -/
def isVisible (st : SpotState) (pid : Nat) : Bool :=
  (st.panelVisible.lookup pid).getD false

/-- Updates the recorded native visibility of panel `pid`. -/
def setVisible (l : List (Nat × Bool)) (pid : Nat) (v : Bool) : List (Nat × Bool) :=
  l.map (fun p => if p.1 == pid then (p.1, v) else p)

/-- Embeds `SpotlightManager::show`: read lock (poisoning yields
`Error::RwLock`), lookup; when no entry exists, `Ok(())` with no effect;
otherwise lock the entry's mutex (poisoning yields `Error::Mutex`) and call
`panel.show()` unconditionally. The native effect of `RawNSPanel::show`
(making the panel visible) is modelled from the spec, `panel.rs` not being
among the provided sources. -/
def showPanel (st : SpotState) (label : String) : Except Error Unit × SpotState :=
  if st.rwPoisoned then (.error (.RwLock "failed to read registered panels"), st)
  else
    match st.panels.lookup label with
    | none => (.ok (), st)
    | some pid =>
      if st.poisonedPanels.contains label then (.error (.Mutex "failed to lock panel"), st)
      else (.ok (), { st with nativeCalls := st.nativeCalls ++ [.panelShow pid]
                            , panelVisible := setVisible st.panelVisible pid true })

/-- Embeds `SpotlightManager::hide`: same structure as `show`, calling
`panel.order_out(None)` unconditionally when an entry exists. -/
def hidePanel (st : SpotState) (label : String) : Except Error Unit × SpotState :=
  if st.rwPoisoned then (.error (.RwLock "failed to read registered panels"), st)
  else
    match st.panels.lookup label with
    | none => (.ok (), st)
    | some pid =>
      if st.poisonedPanels.contains label then (.error (.Mutex "failed to lock panel"), st)
      else (.ok (), { st with nativeCalls := st.nativeCalls ++ [.panelOrderOut pid]
                            , panelVisible := setVisible st.panelVisible pid false })

/-- Outcome of a shortcut callback: Rust `unwrap()` on an `Err` aborts the
thread, modelled as `panicked`. -/
inductive CallbackResult where
  | panicked
  | completed (st : SpotState)
deriving DecidableEq, Repr

/-- Embeds the per-window toggle callback installed by
`register_shortcut_for_window`: `manager.get_panel(label).unwrap()`, then
`order_out` if visible else `show`, acting directly on the cloned handle. -/
def toggleCallback (st : SpotState) (label : String) : CallbackResult :=
  match get_panel st label with
  | .error _ => .panicked
  | .ok pid =>
    if isVisible st pid then
      .completed { st with nativeCalls := st.nativeCalls ++ [.panelOrderOut pid]
                         , panelVisible := setVisible st.panelVisible pid false }
    else
      .completed { st with nativeCalls := st.nativeCalls ++ [.panelShow pid]
                         , panelVisible := setVisible st.panelVisible pid true }

/-- Lock/native events for reasoning about lock extents. -/
inductive Ev where
  | acqRead
  | relRead
  | acqMutex (label : String)
  | relMutex (label : String)
  | nativeShow (pid : Nat)
  | nativeOrderOut (pid : Nat)
deriving DecidableEq, Repr

/-- Event trace of `SpotlightManager::show`, following Rust guard scopes:
the `map` read guard is bound at function scope and dropped on return (no
events at all when the read lock itself fails); the `panel` mutex guard is
bound inside the `if let` block and dropped at its end; `panel.show()`
executes while both guards are alive. A failed mutex lock returns early,
still dropping the read guard. -/
def showTrace (st : SpotState) (label : String) : List Ev :=
  if st.rwPoisoned then []
  else
    match st.panels.lookup label with
    | none => [.acqRead, .relRead]
    | some pid =>
      if st.poisonedPanels.contains label then [.acqRead, .relRead]
      else [.acqRead, .acqMutex label, .nativeShow pid, .relMutex label, .relRead]

/-- Event trace of `SpotlightManager::hide`; same guard scopes as `show`,
with `panel.order_out(None)` as the native call. -/
def hideTrace (st : SpotState) (label : String) : List Ev :=
  if st.rwPoisoned then []
  else
    match st.panels.lookup label with
    | none => [.acqRead, .relRead]
    | some pid =>
      if st.poisonedPanels.contains label then [.acqRead, .relRead]
      else [.acqRead, .acqMutex label, .nativeOrderOut pid, .relMutex label, .relRead]

/-- `nativeUnderLock es n = true` iff, starting from `n` currently-held
locks, some native call in `es` executes while at least one registry lock
(read lock or handle mutex) is held. -/
def nativeUnderLock : List Ev → Nat → Bool
  | [], _ => false
  | .acqRead :: es, n => nativeUnderLock es (n + 1)
  | .relRead :: es, n => nativeUnderLock es (n - 1)
  | .acqMutex _ :: es, n => nativeUnderLock es (n + 1)
  | .relMutex _ :: es, n => nativeUnderLock es (n - 1)
  | .nativeShow _ :: es, n => (n != 0) || nativeUnderLock es n
  | .nativeOrderOut _ :: es, n => (n != 0) || nativeUnderLock es n

/-- Concrete window config used by witnesses: the `"main"` window of the
end-to-end scenario in §8 of the spec. -/
def mainWC : WindowConfig :=
  { label := "main", shortcut := some "Ctrl+I", macos_window_level := none, auto_hide := some true }

/-- Concrete window config with no per-window shortcut. -/
def secondWC : WindowConfig :=
  { label := "second", shortcut := none, macos_window_level := none, auto_hide := none }

/-- Concrete plugin config used by witnesses. -/
def demoConfig : PluginConfig :=
  { windows := some [mainWC, secondWC], global_close_shortcut := some "Escape" }

/-- Fresh manager state over `demoConfig`: nothing registered, no faults. -/
def baseState : SpotState :=
  { config := demoConfig, panels := [], panelVisible := [], nextPanelId := 0
  , nativeCalls := [], shortcuts := [], rwPoisoned := false, poisonedPanels := []
  , failingRegisters := [], failingQueries := [] }

/-- State in which `"main"` is already initialised and its panel visible. -/
def registeredState : SpotState :=
  { baseState with panels := [("main", 0)], panelVisible := [(0, true)]
                 , nextPanelId := 1, shortcuts := ["Ctrl+I", "Escape"] }

/-- State in which the backend rejects registration of `"Ctrl+I"`. -/
def failRegState : SpotState :=
  { baseState with failingRegisters := ["Ctrl+I"] }

/-! ## Merge theorems -/

/-- C2: the claim fails as stated — for a configuration whose `windows`
field is a present-but-empty list, merging with the empty configuration is
not the identity: the empty list is normalised to absent. -/
theorem merge_empty_identity_cex :
    PluginConfig.merge ⟨some [], none⟩ PluginConfig.empty ≠ ⟨some [], none⟩ := by
  decide

/-- C2 (amended): merging with the empty configuration is the identity in
both positions for every configuration whose `windows` field is not a
present-but-empty list; when `windows` is `Some([])`, the final
normalisation turns it into absent, so the identity fails there. -/
theorem merge_empty_identity (cfg : PluginConfig) (h : cfg.windows ≠ some []) :
    PluginConfig.merge cfg PluginConfig.empty = cfg ∧
    PluginConfig.merge PluginConfig.empty cfg = cfg := by
  obtain ⟨w, gcs⟩ := cfg
  cases w with
  | none =>
    constructor <;>
      simp [PluginConfig.merge, PluginConfig.empty, mergeChosen, mergeAppended, mergeDict]
  | some l =>
    have hl : l ≠ [] := fun hl => h (by simp [hl])
    have hlen : ¬ l.length = 0 := by simpa using hl
    constructor
    · simp [PluginConfig.merge, PluginConfig.empty, mergeChosen, mergeAppended, mergeDict, hlen]
    · simp [PluginConfig.merge, PluginConfig.empty, mergeChosen, mergeAppended, mergeDict, hlen]
      intro a ha
      exact ⟨a, ha, rfl⟩

/-- Witness: `merge_empty_identity` applied at the demo configuration. -/
theorem merge_empty_identity_witness :
    PluginConfig.merge demoConfig PluginConfig.empty = demoConfig ∧
    PluginConfig.merge PluginConfig.empty demoConfig = demoConfig :=
  merge_empty_identity demoConfig (by decide)

/-- C4: the claim fails as stated — duplicate labels inside the primary
configuration's own window list survive the merge, so the merged list can
contain two entries with the same label. -/
theorem merge_labels_unique_cex :
    ¬ (((PluginConfig.merge
          ⟨some [⟨"x", none, none, none⟩, ⟨"x", none, none, none⟩], none⟩
          PluginConfig.empty).windows.getD []).map (fun w => w.label)).Nodup := by
  decide

/-- C4 (amended): the merge removes only cross-list duplicates — an entry of
the secondary list is appended exactly when its label does not occur in the
chosen (primary-precedence) list, so the chosen occurrence wins across
lists; duplicates inside a single input list are not removed, hence label
uniqueness of the merged list holds when the chosen list's labels and the
secondary list's labels are each duplicate-free. -/
theorem merge_labels_nodup (a b : PluginConfig)
    (h1 : (mergeDict a b).Nodup)
    (h2 : ((b.windows.getD []).map (fun w => w.label)).Nodup) :
    (∀ c ∈ mergeAppended a b, c.label ∉ mergeDict a b) ∧
    (((PluginConfig.merge a b).windows.getD []).map (fun w => w.label)).Nodup := by
  have happ : ∀ c ∈ mergeAppended a b, c.label ∉ mergeDict a b := by
    intro c hc
    unfold mergeAppended at hc
    cases hb : b.windows with
    | none => rw [hb] at hc; simp at hc
    | some w =>
      rw [hb] at hc
      have := List.of_mem_filter hc
      simpa using this
  refine ⟨happ, ?_⟩
  unfold PluginConfig.merge
  by_cases hlen : (mergeChosen a b ++ mergeAppended a b).length = 0
  · simp [hlen]
  · simp only [hlen, if_false, Option.getD_some, List.map_append]
    rw [List.nodup_append]
    refine ⟨h1, ?_, ?_⟩
    · have hsub : (mergeAppended a b).Sublist (b.windows.getD []) := by
        unfold mergeAppended
        cases hb : b.windows with
        | none => simp
        | some w => simp [List.filter_sublist w]
      exact h2.sublist (hsub.map (fun w => w.label))
    · intro x hx hx2
      obtain ⟨c, hc, hcl⟩ := List.mem_map.mp hx2
      exact happ c hc (hcl ▸ hx)

/-- Witness: `merge_labels_nodup` applied at two concrete duplicate-free
configurations. -/
theorem merge_labels_nodup_witness :
    (∀ c ∈ mergeAppended ⟨some [mainWC], none⟩ ⟨some [secondWC], none⟩,
      c.label ∉ mergeDict ⟨some [mainWC], none⟩ ⟨some [secondWC], none⟩) ∧
    (((PluginConfig.merge ⟨some [mainWC], none⟩ ⟨some [secondWC], none⟩).windows.getD
        []).map (fun w => w.label)).Nodup :=
  merge_labels_nodup ⟨some [mainWC], none⟩ ⟨some [secondWC], none⟩ (by decide) (by decide)

/-- C5: the claim fails as stated — when `a.windows` is a present-but-empty
list (and `b` contributes nothing), the claim predicts a present empty list,
but the code normalises the empty result to absent. -/
theorem merge_windows_shape_cex :
    (PluginConfig.merge ⟨some [], none⟩ PluginConfig.empty).windows ≠ some [] := by
  decide

/-- C5 (amended): `merge(a, b).windows` equals the chosen list (`a.windows`
if present, else `b.windows`) followed by every entry of `b.windows` whose
label is not already present in the chosen list — chosen entries first, in
their original order, then the remaining `b` entries in their original
order — with the resulting list normalised to absent when empty; and
`merge(a, b).global_close_shortcut` is `a`'s when defined, else `b`'s. -/
theorem merge_windows_spec (a b : PluginConfig) :
    (PluginConfig.merge a b).windows = specMergeWindows a b ∧
    (PluginConfig.merge a b).global_close_shortcut = specMergeClose a b := by
  constructor
  · obtain ⟨aw, ag⟩ := a
    obtain ⟨bw, bg⟩ := b
    cases aw <;> cases bw <;>
      simp [PluginConfig.merge, specMergeWindows, mergeChosen, mergeAppended, mergeDict,
        List.isEmpty_iff_length_eq_zero]
  · obtain ⟨aw, ag⟩ := a
    obtain ⟨bw, bg⟩ := b
    cases ag <;> simp [PluginConfig.merge, specMergeClose, Option.or]

/-! ## Registry theorems -/

/-- C3: the claim fails as stated — showing a panel that is already visible
(its native visibility already equals the target state) still performs a
native call. -/
theorem show_redundant_native_call_cex :
    isVisible registeredState 0 = true ∧
    registeredState.panels.lookup "main" = some 0 ∧
    (showPanel registeredState "main").2.nativeCalls =
      registeredState.nativeCalls ++ [.panelShow 0] := by
  refine ⟨by decide, by decide, by decide⟩

/-- C3 (amended): for every registered identifier, `show` and `hide`
unconditionally invoke the handle's native show/hide operation — no
visibility check is made, so the native call happens whether or not the
panel is already in the target state. -/
theorem show_hide_native_unconditional (st : SpotState) (label : String) (pid : Nat)
    (hrw : st.rwPoisoned = false)
    (hl : st.panels.lookup label = some pid)
    (hp : st.poisonedPanels.contains label = false) :
    showPanel st label =
      (.ok (), { st with nativeCalls := st.nativeCalls ++ [.panelShow pid]
                       , panelVisible := setVisible st.panelVisible pid true }) ∧
    hidePanel st label =
      (.ok (), { st with nativeCalls := st.nativeCalls ++ [.panelOrderOut pid]
                       , panelVisible := setVisible st.panelVisible pid false }) := by
  have hp2 : label ∉ st.poisonedPanels := by simpa using hp
  constructor <;> simp [showPanel, hidePanel, hrw, hl, hp2]

/-- Witness: `show_hide_native_unconditional` at the registered state, whose
`"main"` panel is already visible. -/
theorem show_hide_native_unconditional_witness :
    showPanel registeredState "main" =
      (.ok (), { registeredState with
                   nativeCalls := registeredState.nativeCalls ++ [.panelShow 0]
                 , panelVisible := setVisible registeredState.panelVisible 0 true }) ∧
    hidePanel registeredState "main" =
      (.ok (), { registeredState with
                   nativeCalls := registeredState.nativeCalls ++ [.panelOrderOut 0]
                 , panelVisible := setVisible registeredState.panelVisible 0 false }) :=
  show_hide_native_unconditional registeredState "main" 0 (by decide) (by decide) (by decide)

/-- C7: for every identifier with no registry entry, `show` and `hide`
return success, make no native call, and leave the whole state (registry
included) unchanged. -/
theorem show_hide_unregistered_noop (st : SpotState) (label : String)
    (hrw : st.rwPoisoned = false)
    (hl : st.panels.lookup label = none) :
    showPanel st label = (.ok (), st) ∧ hidePanel st label = (.ok (), st) := by
  constructor <;> simp [showPanel, hidePanel, hrw, hl]

/-- Witness: `show_hide_unregistered_noop` at the fresh state, on an
identifier with no configuration match at all. -/
theorem show_hide_unregistered_noop_witness :
    showPanel baseState "unmanaged" = (.ok (), baseState) ∧
    hidePanel baseState "unmanaged" = (.ok (), baseState) :=
  show_hide_unregistered_noop baseState "unmanaged" (by decide) (by decide)

/-- C6: when a registry entry for the identifier already exists (and the
identifier has a matching configuration), `init` is a no-op success: the
state is returned unchanged — no second panel handle, no re-registration,
no modification of the stored entry. -/
theorem init_idempotent (st : SpotState) (label : String) (wc : WindowConfig)
    (hconf : getWindowConfig st.config label = some wc)
    (hrw : st.rwPoisoned = false)
    (hl : (st.panels.lookup label).isSome = true) :
    init_spotlight_window st label = (.ok (), st) := by
  simp [init_spotlight_window, hconf, hrw, hl]

/-- Witness: `init_idempotent` at the already-initialised state. -/
theorem init_idempotent_witness :
    init_spotlight_window registeredState "main" = (.ok (), registeredState) :=
  init_idempotent registeredState "main" mainWC (by rfl) (by decide) (by decide)

/-- C1: the claim fails as stated — when per-window shortcut registration
fails after the panel has been created, no registry entry for the
identifier exists, so programmatic show does not reach the native panel
(it is a no-op). The panel itself was created (`nextPanelId` advanced) and
is not rolled back. -/
theorem init_failure_registry_entry_cex :
    (init_spotlight_window failRegState "main").1 =
      .error (.Other "failed to register shortcut") ∧
    (init_spotlight_window failRegState "main").2.nextPanelId =
      failRegState.nextPanelId + 1 ∧
    (init_spotlight_window failRegState "main").2.panels.lookup "main" = none ∧
    (showPanel (init_spotlight_window failRegState "main").2 "main").2.nativeCalls = [] := by
  refine ⟨by rfl, by decide, by decide, by decide⟩

/-- C1 (amended): if `init` fails at per-window shortcut registration after
the panel has been created, it aborts the remaining steps without rollback —
the post-state is exactly the pre-state plus the created panel — but the
handle is never inserted into the registry, so `show`/`hide` for that
identifier are no-ops and do not reach the native panel. -/
theorem init_failure_aborts_no_entry (st : SpotState) (label : String)
    (wc : WindowConfig) (s : String)
    (hconf : getWindowConfig st.config label = some wc)
    (hrw : st.rwPoisoned = false)
    (hl : st.panels.lookup label = none)
    (hs : wc.shortcut = some s)
    (hf : st.failingRegisters.contains s = true) :
    init_spotlight_window st label =
      (.error (.Other "failed to register shortcut"), createPanelState st) ∧
    showPanel (createPanelState st) label = (.ok (), createPanelState st) ∧
    hidePanel (createPanelState st) label = (.ok (), createPanelState st) := by
  have hf2 : s ∈ st.failingRegisters := by simpa using hf
  refine ⟨?_, ?_, ?_⟩
  · simp [init_spotlight_window, hconf, hrw, hl, registerShortcutForWindow, hs,
      backendRegister, createPanelState, hf2]
  · simp [showPanel, createPanelState, hrw, hl]
  · simp [hidePanel, createPanelState, hrw, hl]

/-- Witness: `init_failure_aborts_no_entry` at the state whose backend
rejects `"Ctrl+I"`. -/
theorem init_failure_aborts_no_entry_witness :
    init_spotlight_window failRegState "main" =
      (.error (.Other "failed to register shortcut"), createPanelState failRegState) ∧
    showPanel (createPanelState failRegState) "main" =
      (.ok (), createPanelState failRegState) ∧
    hidePanel (createPanelState failRegState) "main" =
      (.ok (), createPanelState failRegState) :=
  init_failure_aborts_no_entry failRegState "main" mainWC "Ctrl+I"
    (by rfl) (by decide) (by decide) (by rfl) (by decide)

/-- C10: the per-window toggle shortcut callback unwraps the registry
lookup, so it panics whenever the lookup fails — identifier not registered,
registry read lock poisoned, or the entry's handle mutex poisoned. -/
theorem toggle_callback_panics (st : SpotState) (label : String)
    (h : st.rwPoisoned = true ∨ st.panels.lookup label = none ∨
         st.poisonedPanels.contains label = true) :
    toggleCallback st label = .panicked := by
  unfold toggleCallback get_panel
  rcases h with h | h | h
  · simp [h]
  · cases hrw : st.rwPoisoned <;> simp [h]
  · have h2 : label ∈ st.poisonedPanels := by simpa using h
    cases hrw : st.rwPoisoned
    · cases hlook : st.panels.lookup label <;> simp [h2]
    · simp

/-- Witness: `toggle_callback_panics` when the shortcut fires before the
window's registry entry exists. -/
theorem toggle_callback_panics_witness :
    toggleCallback baseState "main" = .panicked :=
  toggle_callback_panics baseState "main" (Or.inr (Or.inl (by decide)))

/-- C9: the claim fails as stated — in `show`, the native call executes
while the registry read lock (and the handle mutex) is held. -/
theorem native_call_under_lock_cex :
    nativeUnderLock (showTrace registeredState "main") 0 = true := by
  decide

/-- C9 (amended): in `show` and `hide`, for every registered identifier,
the registry read lock and the stored handle's mutex are held while the
native show/hide call executes — the guards are dropped only after the
native call returns, so the locks do not scope only the map access. -/
theorem show_hide_hold_locks_across_native (st : SpotState) (label : String) (pid : Nat)
    (hrw : st.rwPoisoned = false)
    (hl : st.panels.lookup label = some pid)
    (hp : st.poisonedPanels.contains label = false) :
    nativeUnderLock (showTrace st label) 0 = true ∧
    nativeUnderLock (hideTrace st label) 0 = true := by
  have hp2 : label ∉ st.poisonedPanels := by simpa using hp
  constructor <;> simp [showTrace, hideTrace, hrw, hl, hp2, nativeUnderLock]

/-- Witness: `show_hide_hold_locks_across_native` at the registered state. -/
theorem show_hide_hold_locks_across_native_witness :
    nativeUnderLock (hideTrace registeredState "main") 0 = true :=
  (show_hide_hold_locks_across_native registeredState "main" 0
    (by decide) (by decide) (by decide)).2

/-! ## Close-shortcut registration -/

/-- Helper: if `register_shortcut_for_window` succeeds, the manager fields
are unchanged and the shortcut list is either unchanged or has the window's
(previously unregistered) shortcut appended. -/
theorem registerShortcutForWindow_ok (st : SpotState) (wc : WindowConfig) (st2 : SpotState)
    (h : registerShortcutForWindow st wc = .ok st2) :
    st2.config = st.config ∧ st2.panels = st.panels ∧
    (st2.shortcuts = st.shortcuts ∨
      ∃ s, wc.shortcut = some s ∧ s ∉ st.shortcuts ∧
        st2.shortcuts = st.shortcuts ++ [s]) := by
  unfold registerShortcutForWindow backendRegister at h
  cases hs : wc.shortcut with
  | none =>
    rw [hs] at h
    cases h
    exact ⟨rfl, rfl, Or.inl rfl⟩
  | some s =>
    rw [hs] at h
    by_cases h1 : s ∈ st.failingRegisters
    · simp [h1] at h
    · by_cases h2 : s ∈ st.shortcuts
      · simp [h1, h2] at h
      · simp [h1, h2] at h
        subst h
        exact ⟨rfl, rfl, Or.inr ⟨s, rfl, h2, rfl⟩⟩

/-- Helper: if `register_close_shortcut` succeeds with a configured close
shortcut `cs`, the manager fields are unchanged and either `cs` was already
registered and nothing changed, or `cs` was appended. -/
theorem registerCloseShortcut_ok (st st2 : SpotState) (cs : String)
    (hc : st.config.global_close_shortcut = some cs)
    (h : registerCloseShortcut st = .ok st2) :
    st2.config = st.config ∧ st2.panels = st.panels ∧
    ((cs ∈ st.shortcuts ∧ st2.shortcuts = st.shortcuts) ∨
     (cs ∉ st.shortcuts ∧ st2.shortcuts = st.shortcuts ++ [cs])) := by
  unfold registerCloseShortcut backendIsRegistered backendRegister at h
  rw [hc] at h
  by_cases hq : cs ∈ st.failingQueries
  · simp [hq] at h
  · by_cases hr : cs ∈ st.shortcuts
    · simp [hq, hr] at h
      subst h
      exact ⟨rfl, rfl, Or.inl ⟨hr, rfl⟩⟩
    · by_cases hf : cs ∈ st.failingRegisters
      · simp [hq, hr, hf] at h
      · simp [hq, hr, hf] at h
        subst h
        exact ⟨rfl, rfl, Or.inr ⟨hr, rfl⟩⟩

/-- Helper: effect of a successful `init` on the registration count of the
configured close shortcut `cs`: a run that actually initialises a window
brings the count from 0 to 1, and any successful run preserves a count
of 1. -/
theorem init_ok_close_count (st : SpotState) (l : String) (st2 : SpotState) (cs : String)
    (hc : st.config.global_close_shortcut = some cs)
    (h : init_spotlight_window st l = (.ok (), st2)) :
    st2.config = st.config ∧
    ((getWindowConfig st.config l).isSome = true → st.panels.lookup l = none →
      st.shortcuts.count cs = 0 → st2.shortcuts.count cs = 1) ∧
    (st.shortcuts.count cs = 1 → st2.shortcuts.count cs = 1) := by
  unfold init_spotlight_window at h
  cases hg : getWindowConfig st.config l with
  | none =>
    rw [hg] at h
    cases h
    exact ⟨rfl, fun hsome => by simp [hg] at hsome, fun h1 => h1⟩
  | some wc =>
    rw [hg] at h
    cases hrw : st.rwPoisoned with
    | true => rw [hrw] at h; simp at h
    | false =>
      rw [hrw] at h
      simp only [Bool.false_eq_true, if_false] at h
      cases hsome : (st.panels.lookup l).isSome with
      | true =>
        rw [hsome] at h
        simp at h
        obtain ⟨-, rfl⟩ := h
        exact ⟨rfl, fun _ hl => by rw [hl] at hsome; simp at hsome, fun h1 => h1⟩
      | false =>
        rw [hsome] at h
        simp only [Bool.false_eq_true, if_false] at h
        cases hreg : registerShortcutForWindow (createPanelState st) wc with
        | error e => rw [hreg] at h; simp at h
        | ok stA =>
          rw [hreg] at h
          dsimp only at h
          cases hclose : registerCloseShortcut stA with
          | error e => rw [hclose] at h; simp at h
          | ok stB =>
            rw [hclose] at h
            simp at h
            obtain ⟨-, rfl⟩ := h
            obtain ⟨eAc, -, hAs⟩ :=
              registerShortcutForWindow_ok (createPanelState st) wc stA hreg
            have eAc2 : stA.config = st.config := eAc
            have hcA : stA.config.global_close_shortcut = some cs := by rw [eAc2, hc]
            obtain ⟨eBc, -, hBs⟩ := registerCloseShortcut_ok stA stB cs hcA hclose
            have ecfg : stB.config = st.config := by rw [eBc, eAc2]
            have hAshort : stA.shortcuts = st.shortcuts ∨
                ∃ s, s ∉ st.shortcuts ∧ stA.shortcuts = st.shortcuts ++ [s] := by
              rcases hAs with h | ⟨s, -, hs1, hs2⟩
              · exact Or.inl h
              · exact Or.inr ⟨s, hs1, hs2⟩
            refine ⟨ecfg, ?_, ?_⟩
            · intro _ _ h0
              have h0m : cs ∉ st.shortcuts := List.count_eq_zero.mp h0
              have hAcount : stA.shortcuts.count cs ≤ 1 ∧
                  (cs ∈ stA.shortcuts → stA.shortcuts.count cs = 1) := by
                rcases hAshort with hA | ⟨s, -, hA⟩
                · rw [hA]
                  constructor
                  · omega
                  · intro hm; exact absurd hm h0m
                · rw [hA]
                  constructor
                  · rcases eq_or_ne s cs with rfl | hne
                    · simp [List.count_append, h0]
                    · simp [List.count_append, h0, List.count_singleton', hne]
                  · intro hm
                    rcases eq_or_ne s cs with rfl | hne
                    · simp [List.count_append, h0]
                    · rw [List.mem_append] at hm
                      rcases hm with hm | hm
                      · exact absurd hm h0m
                      · simp at hm; exact absurd hm.symm hne
              rcases hBs with ⟨hmem, hB⟩ | ⟨hmem, hB⟩
              · rw [hB]; exact hAcount.2 hmem
              · rw [hB, List.count_append]
                have : stA.shortcuts.count cs = 0 := List.count_eq_zero.mpr hmem
                simp [this]
            · intro h1
              have h1m : cs ∈ st.shortcuts := List.count_pos_iff.mp (by omega)
              have hAcount : stA.shortcuts.count cs = 1 ∧ cs ∈ stA.shortcuts := by
                rcases hAshort with hA | ⟨s, hsn, hA⟩
                · rw [hA]; exact ⟨h1, h1m⟩
                · have hne : s ≠ cs := fun hcontra => hsn (hcontra ▸ h1m)
                  rw [hA]
                  constructor
                  · simp [List.count_append, h1, List.count_singleton', hne]
                  · exact List.mem_append.mpr (Or.inl h1m)
              rcases hBs with ⟨-, hB⟩ | ⟨hmem, -⟩
              · rw [hB]; exact hAcount.1
              · exact absurd hAcount.2 hmem

/-- C8: the global close shortcut is registered at most once per process:
`register_close_shortcut` first queries whether the shortcut string is
already registered — if so it skips silently and succeeds; a failing query
or a failing registration surfaces an error; and two successful window
initialisations against the same configured close shortcut leave exactly
one active registration. -/
theorem close_shortcut_registered_once (st : SpotState) (cs : String)
    (hc : st.config.global_close_shortcut = some cs) :
    (st.failingQueries.contains cs = false → st.shortcuts.contains cs = true →
      registerCloseShortcut st = .ok st) ∧
    (st.failingQueries.contains cs = true →
      registerCloseShortcut st = .error (.Other "failed to register shortcut")) ∧
    (st.failingQueries.contains cs = false → st.shortcuts.contains cs = false →
      st.failingRegisters.contains cs = true →
      registerCloseShortcut st = .error .TauriRuntime) ∧
    (∀ l1 l2 st1 st2,
      init_spotlight_window st l1 = (.ok (), st1) →
      init_spotlight_window st1 l2 = (.ok (), st2) →
      (getWindowConfig st.config l1).isSome = true →
      st.panels.lookup l1 = none →
      st.shortcuts.count cs = 0 →
      st2.shortcuts.count cs = 1) := by
  refine ⟨?_, ?_, ?_, ?_⟩
  · intro hq hr
    have hq2 : cs ∉ st.failingQueries := by simpa using hq
    have hr2 : cs ∈ st.shortcuts := by simpa using hr
    simp [registerCloseShortcut, hc, backendIsRegistered, hq2, hr2]
  · intro hq
    have hq2 : cs ∈ st.failingQueries := by simpa using hq
    simp [registerCloseShortcut, hc, backendIsRegistered, hq2]
  · intro hq hr hf
    have hq2 : cs ∉ st.failingQueries := by simpa using hq
    have hr2 : cs ∉ st.shortcuts := by simpa using hr
    have hf2 : cs ∈ st.failingRegisters := by simpa using hf
    simp [registerCloseShortcut, hc, backendIsRegistered, backendRegister, hq2, hr2, hf2]
  · intro l1 l2 st1 st2 h1 h2 hg hl h0
    obtain ⟨e1, p1, -⟩ := init_ok_close_count st l1 st1 cs hc h1
    have hc1 : st1.config.global_close_shortcut = some cs := by rw [e1]; exact hc
    obtain ⟨-, -, p3⟩ := init_ok_close_count st1 l2 st2 cs hc1 h2
    exact p3 (p1 hg hl h0)

/-- Witness: two successful initialisations of `"main"` and `"second"`
against the same configured close shortcut `"Escape"` leave exactly one
active registration. -/
theorem close_shortcut_registered_once_witness :
    ((init_spotlight_window (init_spotlight_window baseState "main").2
        "second").2).shortcuts.count "Escape" = 1 :=
  (close_shortcut_registered_once baseState "Escape" rfl).2.2.2 "main" "second"
    (init_spotlight_window baseState "main").2
    (init_spotlight_window (init_spotlight_window baseState "main").2 "second").2
    (by rfl) (by rfl) (by rfl) (by decide) (by decide)
